import Mathlib

/-!
Verification of the `check container` command of openshift-preflight
(`cmd/preflight/cmd/check_container.go`).

The development shallowly embeds the three functions with nontrivial logic:

* `validateCertificationProjectID` — legacy certification-project-id
  normalization (split on `-`, reject more than two parts, rewrite
  `ospid-<id>` to `<id>`);
* `checkContainerPositionalArgs` — positional-argument count check, the
  defensive scan of all flag values for an embedded `--submit` marker, and
  the five ordered submission-prerequisite checks;
* `generateContainerCheckOptions` — assembly of the ordered option list
  for the container check engine, including the insecure-mode override of
  the submit flag.

Go strings are modelled as Lean `String`; the Go standard library helpers
`strings.Split`, `strings.Contains` and `strings.HasPrefix` are modelled by
structurally recursive functions on the character lists of the strings, so
that every definition evaluates by kernel reduction.  The Go panic on an
out-of-range slice index is modelled explicitly by a `panic` result
constructor.
-/

namespace Preflight

/-- Model of Go `strings.Split(s, sep)` for a single-character separator,
working on the character list.  `strings.Split` on a non-empty separator
always returns at least one element; in particular splitting the empty
string yields `[""]`. -/
def splitOnChar (sep : Char) : List Char → List (List Char)
  | [] => [[]]
  | c :: cs =>
    if c = sep then
      [] :: splitOnChar sep cs
    else
      match splitOnChar sep cs with
      | [] => [[c]]
      | w :: ws => (c :: w) :: ws

/-- Model of Go `strings.Split` for a single-character separator, on
`String`. -/
def stringSplit (s : String) (sep : Char) : List String :=
  (splitOnChar sep s.toList).map fun l => String.mk l

/-- Model of Go `strings.HasPrefix(s, pre)`. -/
def strStartsWith (s pre : String) : Bool :=
  pre.toList.isPrefixOf s.toList

/-- Helper for `strContains`: does `needle` occur as a contiguous run
inside the second list? -/
def substrAux (needle : List Char) : List Char → Bool
  | [] => needle.isEmpty
  | c :: cs => needle.isPrefixOf (c :: cs) || substrAux needle cs

/-- Model of Go `strings.Contains(s, sub)`. -/
def strContains (s sub : String) : Bool :=
  substrAux sub.toList s.toList

/-- Outcome of `validateCertificationProjectID`.  The Go function returns
an error or `nil` while possibly rewriting the configured id through
`viper.Set`; `ok` carries the configured identifier as it stands after the
call.  `panicIndexOutOfRange` models a Go runtime panic from indexing
`parts[1]` when the slice has fewer than two elements. -/
inductive NormResult where
  | ok (certificationProjectID : String)
  | malformedIdentifierError
  | panicIndexOutOfRange
deriving DecidableEq, Repr

/-- Embedding of `validateCertificationProjectID`
(`check_container.go:175-191`): split the configured id on `-`; more than
two parts is an error; otherwise, if the first part is `"ospid"`, the
configured id is rewritten to the second part (`parts[1]` — which panics
when no second part exists); otherwise the id is left unchanged. -/
def validateCertificationProjectID (certificationProjectID : String) : NormResult :=
  let parts := stringSplit certificationProjectID '-'
  if parts.length > 2 then
    NormResult.malformedIdentifierError
  else
    match parts.get? 0 with
    | none => NormResult.panicIndexOutOfRange
    | some p0 =>
      if p0 = "ospid" then
        match parts.get? 1 with
        | none => NormResult.panicIndexOutOfRange
        | some p1 => NormResult.ok p1
      else
        NormResult.ok certificationProjectID

/-- The distinct errors `checkContainerPositionalArgs` can return, one per
`fmt.Errorf` site (`check_container.go:132-171`). -/
inductive CheckError where
  | argumentError
  | missingProjectID
  | missingToken
  | emptyProjectID
  | emptyToken
  | malformedCredential
deriving DecidableEq, Repr

/-- A pflag flag as `checkContainerPositionalArgs` observes it: whether it
was explicitly changed on the command line, and its textual value
(`f.Value.String()`). -/
structure Flag where
  changed : Bool
  value : String
deriving DecidableEq, Repr

/-- The seven flags registered on the `check container` command
(`check_container.go:44-71`). -/
structure CmdFlags where
  submit : Flag
  insecure : Flag
  pyxisAPIToken : Flag
  pyxisHost : Flag
  pyxisEnv : Flag
  certificationProjectID : Flag
  platform : Flag
deriving DecidableEq, Repr

/-- The flag set in registration order, as `cmd.Flags().VisitAll` sees it. -/
def CmdFlags.all (fs : CmdFlags) : List Flag :=
  [fs.submit, fs.insecure, fs.pyxisAPIToken, fs.pyxisHost, fs.pyxisEnv,
   fs.certificationProjectID, fs.platform]

/-- The slice of viper state `checkContainerPositionalArgs` queries:
`IsSet` and `GetString` for the two credential keys. -/
structure ViperState where
  certificationProjectIDSet : Bool
  pyxisAPITokenSet : Bool
  certificationProjectID : String
  pyxisAPIToken : String
deriving DecidableEq, Repr

/-- Everything `checkContainerPositionalArgs` reads: the positional
arguments, the package-level `submit` variable, the flags of the command and
the viper state. -/
structure CheckContainerState where
  args : List String
  submit : Bool
  flags : CmdFlags
  viper : ViperState
deriving DecidableEq, Repr

/-- The value the package-level `submit` variable holds after the
`VisitAll` scan (`check_container.go:137-143`): it stays `true` if it
already was, and is set to `true` when the textual value of some changed flag
contains the substring `"--submit"`. -/
def effectiveSubmit (s : CheckContainerState) : Bool :=
  s.submit || s.flags.all.any fun f => f.changed && strContains f.value "--submit"

/-- Embedding of `checkContainerPositionalArgs`
(`check_container.go:132-171`).  Returns the result of the function together
with the value of the package-level `submit` variable after the call (the
only mutation the function performs).  The argument-count check runs first and
returns before the flag scan; then the scan runs, and if submission is
(now) requested the five prerequisite checks run in order, the first
failure returning immediately. -/
def checkContainerPositionalArgs (s : CheckContainerState) :
    Except CheckError Unit × Bool :=
  if s.args.length ≠ 1 then
    (Except.error CheckError.argumentError, s.submit)
  else
    let submit := s.submit ||
      s.flags.all.any fun f => f.changed && strContains f.value "--submit"
    if submit then
      if !s.flags.certificationProjectID.changed && !s.viper.certificationProjectIDSet then
        (Except.error CheckError.missingProjectID, submit)
      else if !s.flags.pyxisAPIToken.changed && !s.viper.pyxisAPITokenSet then
        (Except.error CheckError.missingToken, submit)
      else if s.flags.certificationProjectID.changed && s.viper.certificationProjectID == "" then
        (Except.error CheckError.emptyProjectID, submit)
      else if s.flags.pyxisAPIToken.changed && s.viper.pyxisAPIToken == "" then
        (Except.error CheckError.emptyToken, submit)
      else if strStartsWith s.viper.pyxisAPIToken "--" || strStartsWith s.viper.certificationProjectID "--" then
        (Except.error CheckError.malformedCredential, submit)
      else
        (Except.ok (), submit)
    else
      (Except.ok (), submit)

/-- Spec-side description of the five submission-prerequisite checks in
the required evaluation order: each entry pairs the failure condition with
the error it raises (project-id missing, token missing, project-id empty,
token empty, flag-prefix malformed). -/
def submissionChecks (s : CheckContainerState) : List (Bool × CheckError) :=
  [(!s.flags.certificationProjectID.changed && !s.viper.certificationProjectIDSet,
    CheckError.missingProjectID),
   (!s.flags.pyxisAPIToken.changed && !s.viper.pyxisAPITokenSet,
    CheckError.missingToken),
   (s.flags.certificationProjectID.changed && s.viper.certificationProjectID == "",
    CheckError.emptyProjectID),
   (s.flags.pyxisAPIToken.changed && s.viper.pyxisAPIToken == "",
    CheckError.emptyToken),
   (strStartsWith s.viper.pyxisAPIToken "--" || strStartsWith s.viper.certificationProjectID "--",
    CheckError.malformedCredential)]

/-- Spec-side: the error of the first failing check in the list, or
success when none fails. -/
def firstFailing (checks : List (Bool × CheckError)) : Except CheckError Unit :=
  match checks.find? (fun c => c.1) with
  | some c => Except.error c.2
  | none => Except.ok ()

/-- The fields of `runtime.Config` that `check_container.go` reads or
writes. -/
structure Config where
  certificationProjectID : String
  pyxisAPIToken : String
  pyxisHost : String
  dockerConfig : String
  platform : String
  insecure : Bool
  submit : Bool
  artifacts : String
  logFile : String
  writeJUnit : Bool
deriving DecidableEq, Repr

/-- The `container.Option` values `generateContainerCheckOptions` can
produce, identified by their constructor and arguments. -/
inductive ContainerOption where
  | withCertificationProject (certificationProjectID pyxisAPIToken : String)
  | withDockerConfigJSONFromFile (dockerConfig : String)
  | withPyxisHost (pyxisHost : String)
  | withPlatform (platform : String)
  | withInsecureConnection
deriving DecidableEq, Repr

/-- Embedding of `generateContainerCheckOptions`
(`check_container.go:194-216`).  The Go function takes `cfg` by pointer
and may set `cfg.Submit = false`; the embedding returns the option list
together with the configuration as it stands after the call. -/
def generateContainerCheckOptions (cfg : Config) : List ContainerOption × Config :=
  let o : List ContainerOption :=
    [ContainerOption.withCertificationProject cfg.certificationProjectID cfg.pyxisAPIToken,
     ContainerOption.withDockerConfigJSONFromFile cfg.dockerConfig,
     ContainerOption.withPyxisHost cfg.pyxisHost,
     ContainerOption.withPlatform cfg.platform]
  let o :=
    if cfg.pyxisAPIToken != "" && cfg.certificationProjectID != "" then
      o ++ [ContainerOption.withCertificationProject cfg.certificationProjectID cfg.pyxisAPIToken]
    else
      o
  if cfg.insecure then
    (o ++ [ContainerOption.withInsecureConnection], { cfg with submit := false })
  else
    (o, cfg)

/-! Concrete states used by the witnesses below.  Unchanged flags carry
the default values registered in `checkContainerCmd`
(`check_container.go:44-71`): `false` for the booleans, the empty string
for the credential and host strings, and fixed strings for the pyxis
environment and the platform. -/

/-- A flag set in which no flag was changed and every flag holds its
registered default value. -/
def benignFlags : CmdFlags :=
  { submit := ⟨false, "false"⟩
    insecure := ⟨false, "false"⟩
    pyxisAPIToken := ⟨false, ""⟩
    pyxisHost := ⟨false, ""⟩
    pyxisEnv := ⟨false, "prod"⟩
    certificationProjectID := ⟨false, ""⟩
    platform := ⟨false, "amd64"⟩ }

/-- Submission requested, token flag given, project-id flag never given
and not set from any other source. -/
def submitMissingProjectState : CheckContainerState :=
  { args := ["quay.io/repo/name:v"]
    submit := true
    flags := { benignFlags with
               submit := ⟨true, "true"⟩
               pyxisAPIToken := ⟨true, "tok"⟩ }
    viper := { certificationProjectIDSet := false
               pyxisAPITokenSet := true
               certificationProjectID := ""
               pyxisAPIToken := "tok" } }

/-- Submission not requested directly, but the changed pyxis-host flag
value embeds the `--submit` marker. -/
def markerInFlagState : CheckContainerState :=
  { args := ["quay.io/repo/name:v"]
    submit := false
    flags := { benignFlags with pyxisHost := ⟨true, "host --submit"⟩ }
    viper := { certificationProjectIDSet := false
               pyxisAPITokenSet := false
               certificationProjectID := ""
               pyxisAPIToken := "" } }

/-- Submission requested with both credentials supplied, but the token
value is the flag-like string `"--token"`. -/
def flagPrefixTokenState : CheckContainerState :=
  { args := ["quay.io/repo/name:v"]
    submit := true
    flags := { benignFlags with
               submit := ⟨true, "true"⟩
               pyxisAPIToken := ⟨true, "--token"⟩
               certificationProjectID := ⟨true, "000011112222333344445555"⟩ }
    viper := { certificationProjectIDSet := true
               pyxisAPITokenSet := true
               certificationProjectID := "000011112222333344445555"
               pyxisAPIToken := "--token" } }

/-- A configuration with both `insecure` and `submit` set. -/
def insecureSubmitConfig : Config :=
  { certificationProjectID := "000011112222333344445555"
    pyxisAPIToken := "tok"
    pyxisHost := "catalog.redhat.com/api/containers"
    dockerConfig := "docker.json"
    platform := "amd64"
    insecure := true
    submit := true
    artifacts := "artifacts"
    logFile := "preflight.log"
    writeJUnit := false }

/-- Claim C1: the claim states that every identifier splitting into one
part — in particular the single token `"ospid"` — passes through
normalization unchanged without error or crash.  The code contradicts it:
for the input `"ospid"` the split yields the single part `"ospid"`, the
`parts[0] = "ospid"` branch is taken, and the access to `parts[1]` is out
of range, a Go runtime panic.  This theorem evaluates the embedded code at
that failing input. -/
theorem ospid_single_token_input_panics :
    validateCertificationProjectID "ospid" = NormResult.panicIndexOutOfRange := by
  decide

/-- Claim C2: when exactly one positional argument is supplied and
submission is (after the flag scan) requested, the result of
`checkContainerPositionalArgs` is exactly the error of the first failing
check among the five submission-prerequisite checks taken in the required
order — project-id missing, token missing, project-id empty, token empty,
flag-prefix malformed — and success when none fails. -/
theorem submission_checks_first_failure_order (s : CheckContainerState)
    (hargs : s.args.length = 1) (hsub : effectiveSubmit s = true) :
    (checkContainerPositionalArgs s).1 = firstFailing (submissionChecks s) := by
  have hsub' : (s.submit ||
      s.flags.all.any fun f => f.changed && strContains f.value "--submit") = true := hsub
  unfold checkContainerPositionalArgs
  rw [if_neg (by simp [hargs])]
  simp only [hsub', if_true]
  unfold firstFailing submissionChecks
  cases h1 : (!s.flags.certificationProjectID.changed && !s.viper.certificationProjectIDSet) <;>
  cases h2 : (!s.flags.pyxisAPIToken.changed && !s.viper.pyxisAPITokenSet) <;>
  cases h3 : (s.flags.certificationProjectID.changed && s.viper.certificationProjectID == "") <;>
  cases h4 : (s.flags.pyxisAPIToken.changed && s.viper.pyxisAPIToken == "") <;>
  cases h5 : (strStartsWith s.viper.pyxisAPIToken "--" || strStartsWith s.viper.certificationProjectID "--") <;>
  simp [h1, h2, h3, h4, h5, List.find?]

/-- Witness for claim C2 at a concrete state: submission requested, token
flag set, project-id unset from every source; the result agrees with the
first-failing-check description and is specifically the project-id
missing-credential error, not the token error. -/
theorem submission_checks_first_failure_order_witness :
    submitMissingProjectState.args.length = 1 ∧
    effectiveSubmit submitMissingProjectState = true ∧
    (checkContainerPositionalArgs submitMissingProjectState).1 =
      firstFailing (submissionChecks submitMissingProjectState) ∧
    (checkContainerPositionalArgs submitMissingProjectState).1 =
      Except.error CheckError.missingProjectID :=
  ⟨rfl, rfl,
   submission_checks_first_failure_order submitMissingProjectState rfl rfl,
   rfl⟩

/-- Claim C3: whenever the insecure flag is set in the configuration,
option assembly appends the insecure-connection option and sets the submit
flag of the configuration to false, whatever its value was before. -/
theorem insecure_appends_option_and_forces_submit_off (cfg : Config)
    (h : cfg.insecure = true) :
    ContainerOption.withInsecureConnection ∈ (generateContainerCheckOptions cfg).1 ∧
    (generateContainerCheckOptions cfg).2.submit = false := by
  simp only [generateContainerCheckOptions, h, if_true]
  constructor
  · split <;> simp
  · trivial

/-- Witness for claim C3 at a concrete configuration with `insecure` and
`submit` both set. -/
theorem insecure_appends_option_and_forces_submit_off_witness :
    insecureSubmitConfig.insecure = true ∧
    (ContainerOption.withInsecureConnection ∈
       (generateContainerCheckOptions insecureSubmitConfig).1 ∧
     (generateContainerCheckOptions insecureSubmitConfig).2.submit = false) :=
  ⟨rfl, insecure_appends_option_and_forces_submit_off insecureSubmitConfig rfl⟩

/-- Claim C4: with exactly one positional argument, if the textual value
of some recognized flag contains the substring `"--submit"`, then
`checkContainerPositionalArgs` behaves exactly as it would with the
package-level submit variable already set: the submission-prerequisite
checks run as if submission had been explicitly requested.  The hypothesis
`hdef` records the surrounding flag machinery: an unchanged flag holds its
registered default value, and none of the defaults registered in
`checkContainerCmd` contains the marker. -/
theorem embedded_submit_marker_triggers_prereq_checks (s : CheckContainerState)
    (hargs : s.args.length = 1)
    (hdef : ∀ f ∈ s.flags.all, f.changed = false → strContains f.value "--submit" = false)
    (hmark : ∃ f ∈ s.flags.all, strContains f.value "--submit" = true) :
    checkContainerPositionalArgs s = checkContainerPositionalArgs { s with submit := true } := by
  obtain ⟨f, hf, hfc⟩ := hmark
  have hchanged : f.changed = true := by
    cases hc : f.changed
    · have := hdef f hf hc
      rw [this] at hfc
      exact absurd hfc (by simp)
    · rfl
  have hany : (s.flags.all.any fun f => f.changed && strContains f.value "--submit") = true :=
    List.any_eq_true.mpr ⟨f, hf, by simp [hchanged, hfc]⟩
  have ha1 : ¬ s.args.length ≠ 1 := by simp [hargs]
  have ha2 : ¬ ({ s with submit := true } : CheckContainerState).args.length ≠ 1 := by
    simp [hargs]
  unfold checkContainerPositionalArgs
  rw [if_neg ha1, if_neg ha2]
  simp only [hany, Bool.or_true, Bool.true_or]

/-- Witness for claim C4 at a concrete state: the changed pyxis-host flag
value embeds `"--submit"` while the submit variable is false; the checks
run and, with no credentials configured, fail with the project-id
missing-credential error. -/
theorem embedded_submit_marker_triggers_prereq_checks_witness :
    markerInFlagState.args.length = 1 ∧
    (∃ f ∈ markerInFlagState.flags.all, strContains f.value "--submit" = true) ∧
    checkContainerPositionalArgs markerInFlagState =
      checkContainerPositionalArgs { markerInFlagState with submit := true } ∧
    (checkContainerPositionalArgs markerInFlagState).1 =
      Except.error CheckError.missingProjectID :=
  ⟨rfl, by decide,
   embedded_submit_marker_triggers_prereq_checks markerInFlagState rfl
     (by decide) (by decide),
   rfl⟩

/-- Claim C5: the three concrete normalization mappings of the claim hold
(`"ospid-12345"` to `"12345"`, `"12345"` to itself, `"foo-12345"` to
itself), but the idempotence part of the claim fails on the code:
`"ospid-ospid"` normalizes successfully to `"ospid"`, and renormalizing
the successfully normalized value `"ospid"` does not return it again — it
hits the out-of-range access to `parts[1]`, a Go runtime panic.  This
theorem evaluates the embedded code at those inputs. -/
theorem normalization_examples_and_idempotence_breaks :
    validateCertificationProjectID "ospid-12345" = NormResult.ok "12345" ∧
    validateCertificationProjectID "12345" = NormResult.ok "12345" ∧
    validateCertificationProjectID "foo-12345" = NormResult.ok "foo-12345" ∧
    validateCertificationProjectID "ospid-ospid" = NormResult.ok "ospid" ∧
    validateCertificationProjectID "ospid" = NormResult.panicIndexOutOfRange := by
  decide

/-- Claim C6: every configured identifier that splits on `-` into more
than two parts is rejected by normalization with the malformed-identifier
error.  The function does not consult the submit flag at all, so the
rejection is independent of whether submission was requested. -/
theorem more_than_two_parts_rejected (id : String)
    (h : (stringSplit id '-').length > 2) :
    validateCertificationProjectID id = NormResult.malformedIdentifierError := by
  simp only [validateCertificationProjectID, h, if_true]

/-- Witness for claim C6 at the concrete input `"a-b-c"`. -/
theorem more_than_two_parts_rejected_witness :
    (stringSplit "a-b-c" '-').length > 2 ∧
    validateCertificationProjectID "a-b-c" = NormResult.malformedIdentifierError :=
  ⟨by decide, more_than_two_parts_rejected "a-b-c" (by decide)⟩

/-- Claim C7: for every configuration, the first four assembled options
are, in order, the certification-project/auth pairing, the
docker-credentials file, the pyxis host (never omitted) and the platform;
and a second certification-project/auth pairing appears after them exactly
when both the API token and the project identifier are non-empty. -/
theorem options_order_and_conditional_auth_pair (cfg : Config) :
    (generateContainerCheckOptions cfg).1.take 4 =
      [ContainerOption.withCertificationProject cfg.certificationProjectID cfg.pyxisAPIToken,
       ContainerOption.withDockerConfigJSONFromFile cfg.dockerConfig,
       ContainerOption.withPyxisHost cfg.pyxisHost,
       ContainerOption.withPlatform cfg.platform] ∧
    (ContainerOption.withCertificationProject cfg.certificationProjectID cfg.pyxisAPIToken ∈
       (generateContainerCheckOptions cfg).1.drop 4 ↔
     (cfg.pyxisAPIToken ≠ "" ∧ cfg.certificationProjectID ≠ "")) := by
  by_cases hta : cfg.pyxisAPIToken = "" <;>
    by_cases htb : cfg.certificationProjectID = "" <;>
      cases hi : cfg.insecure <;>
        simp [generateContainerCheckOptions, hta, htb, hi, bne_iff_ne]

/-- Claim C8: when exactly one positional argument is supplied, submission
is requested, and the first four credential checks all pass, a resolved
token or project identifier beginning with `"--"` makes the validation
fail with the malformed-credential error. -/
theorem flag_like_credential_rejected (s : CheckContainerState)
    (hargs : s.args.length = 1) (hsub : effectiveSubmit s = true)
    (h1 : (!s.flags.certificationProjectID.changed && !s.viper.certificationProjectIDSet) = false)
    (h2 : (!s.flags.pyxisAPIToken.changed && !s.viper.pyxisAPITokenSet) = false)
    (h3 : (s.flags.certificationProjectID.changed && s.viper.certificationProjectID == "") = false)
    (h4 : (s.flags.pyxisAPIToken.changed && s.viper.pyxisAPIToken == "") = false)
    (h5 : (strStartsWith s.viper.pyxisAPIToken "--" ||
           strStartsWith s.viper.certificationProjectID "--") = true) :
    (checkContainerPositionalArgs s).1 = Except.error CheckError.malformedCredential := by
  have hsub' : (s.submit ||
      s.flags.all.any fun f => f.changed && strContains f.value "--submit") = true := hsub
  unfold checkContainerPositionalArgs
  rw [if_neg (by simp [hargs])]
  simp [hsub', h1, h2, h3, h4, h5]

/-- Witness for claim C8 at a concrete state: submission requested, both
credentials supplied and non-empty, token value `"--token"`. -/
theorem flag_like_credential_rejected_witness :
    strStartsWith flagPrefixTokenState.viper.pyxisAPIToken "--" = true ∧
    (checkContainerPositionalArgs flagPrefixTokenState).1 =
      Except.error CheckError.malformedCredential :=
  ⟨by decide,
   flag_like_credential_rejected flagPrefixTokenState rfl rfl
     (by decide) (by decide) (by decide) (by decide) (by decide)⟩

/-- Claim C9: whenever the number of positional arguments differs from
one, `checkContainerPositionalArgs` fails with the argument error, and it
returns before the flag scan and before any submission-prerequisite check
runs — in particular the package-level submit variable is left exactly as
it was. -/
theorem exactly_one_positional_arg_required (s : CheckContainerState)
    (h : s.args.length ≠ 1) :
    checkContainerPositionalArgs s = (Except.error CheckError.argumentError, s.submit) := by
  unfold checkContainerPositionalArgs
  rw [if_pos h]

/-- Witness for claim C9 at concrete states with zero and with two
positional arguments. -/
theorem exactly_one_positional_arg_required_witness :
    checkContainerPositionalArgs
        { args := [], submit := false, flags := benignFlags,
          viper := ⟨false, false, "", ""⟩ } =
      (Except.error CheckError.argumentError, false) ∧
    checkContainerPositionalArgs
        { args := ["img-one", "img-two"], submit := false, flags := benignFlags,
          viper := ⟨false, false, "", ""⟩ } =
      (Except.error CheckError.argumentError, false) :=
  ⟨exactly_one_positional_arg_required _ (by decide),
   exactly_one_positional_arg_required _ (by decide)⟩

/-- Claim C10: option assembly leaves every configuration field except the
submit flag unchanged, and the submit flag afterwards is the conjunction
of its prior value with the negation of the insecure flag — so it is only
ever changed from true to false, exactly when the insecure flag is set. -/
theorem option_assembly_frame_effect (cfg : Config) :
    (generateContainerCheckOptions cfg).2.certificationProjectID = cfg.certificationProjectID ∧
    (generateContainerCheckOptions cfg).2.pyxisAPIToken = cfg.pyxisAPIToken ∧
    (generateContainerCheckOptions cfg).2.pyxisHost = cfg.pyxisHost ∧
    (generateContainerCheckOptions cfg).2.dockerConfig = cfg.dockerConfig ∧
    (generateContainerCheckOptions cfg).2.platform = cfg.platform ∧
    (generateContainerCheckOptions cfg).2.insecure = cfg.insecure ∧
    (generateContainerCheckOptions cfg).2.artifacts = cfg.artifacts ∧
    (generateContainerCheckOptions cfg).2.logFile = cfg.logFile ∧
    (generateContainerCheckOptions cfg).2.writeJUnit = cfg.writeJUnit ∧
    (generateContainerCheckOptions cfg).2.submit = (cfg.submit && !cfg.insecure) := by
  cases hi : cfg.insecure <;> simp [generateContainerCheckOptions, hi]

end Preflight
